import Mathlib

/-!
Shallow embedding of the NYC Yellow Taxi dashboard (src/app.py) in Lean 4.

Timestamps are modelled as seconds since the Unix epoch (`Nat`); the calendar
date of a timestamp is its day index `t / 86400`, the hour of day is
`t % 86400 / 3600`, and the weekday name is obtained from the day index
(1970-01-01 was a Thursday), mirroring polars' `.dt.date()`, `.dt.hour()` and
`.dt.strftime("%A")`.  Monetary amounts and distances are modelled as `ℚ`.
Nullable parquet columns are modelled as `Option`; the five columns listed in
the `drop_nulls` call of `load_data` are the ones the pipeline requires.
-/

namespace TaxiDash

/-- Number of seconds in a day. -/
def secondsPerDay : Nat := 86400

/-- Day index of a timestamp, mirroring `.dt.date()` on a datetime column. -/
def dateOf (t : Nat) : Nat := t / secondsPerDay

/-- Hour of day of a timestamp, mirroring `.dt.hour()`. -/
def hourOf (t : Nat) : Nat := t % secondsPerDay / 3600

/-- Full English weekday names indexed from the epoch weekday:
1970-01-01 (day index 0) was a Thursday. -/
def weekdayNames : List String :=
  ["Thursday", "Friday", "Saturday", "Sunday", "Monday", "Tuesday", "Wednesday"]

/-- Weekday name of a timestamp, mirroring `.dt.strftime("%A")`
(locale-invariant full English name). -/
def strftimeA (t : Nat) : String := weekdayNames.getD (dateOf t % 7) ""

/-- A raw parquet row, before cleaning.  The five fields listed in the
`drop_nulls` call of `load_data` (src/app.py lines 71-77) are nullable;
`total_amount` and `payment_type` are carried through unchecked. -/
structure RawRow where
  tpep_pickup_datetime : Option Nat
  tpep_dropoff_datetime : Option Nat
  PULocationID : Option Int
  trip_distance : Option ℚ
  fare_amount : Option ℚ
  total_amount : ℚ
  payment_type : Int
deriving DecidableEq, Repr

/-- A row of the materialized table: exactly the nine columns selected at
src/app.py lines 108-117.  The derived column `trip_speed_mph` is computed by
`with_columns` in the source but dropped by this projection, so it is not
modelled.  -/
structure TripRecord where
  tpep_pickup_datetime : Nat
  fare_amount : ℚ
  total_amount : ℚ
  PULocationID : Int
  trip_distance : ℚ
  trip_duration_minutes : Nat
  pickup_hour : Nat
  pickup_day_of_week : String
  payment_type : Int
deriving DecidableEq, Repr

/-- The `drop_nulls` predicate of `load_data` (src/app.py lines 71-77): keep a
row only when the five required columns are non-null. -/
def drop_nulls_pred (r : RawRow) : Bool :=
  r.tpep_pickup_datetime.isSome && r.tpep_dropoff_datetime.isSome &&
    r.PULocationID.isSome && r.trip_distance.isSome && r.fare_amount.isSome

/-- The validity filter of `load_data` (src/app.py lines 79-85):
`0 < trip_distance ≤ 100`, `0 < fare_amount ≤ 500`, `dropoff ≥ pickup`.
A null operand makes a polars comparison null, and null is dropped by
`filter`, hence the `false` fallback on any missing field. -/
def valid_pred (r : RawRow) : Bool :=
  match r.trip_distance, r.fare_amount, r.tpep_pickup_datetime, r.tpep_dropoff_datetime with
  | some d, some f, some pu, some dof =>
      decide (0 < d) && decide (d ≤ 100) && decide (0 < f) && decide (f ≤ 500) &&
        decide (pu ≤ dof)
  | _, _, _, _ => false

/-- The feature-engineering and projection steps of `load_data`
(src/app.py lines 88-120): derive `trip_duration_minutes`, `pickup_hour` and
`pickup_day_of_week`, and keep the nine selected columns.  The function is
total; the `getD` defaults are never exercised because the pipeline applies it
only after `drop_nulls_pred`. -/
def derive_and_project (r : RawRow) : TripRecord :=
  let pu := r.tpep_pickup_datetime.getD 0
  let dof := r.tpep_dropoff_datetime.getD 0
  { tpep_pickup_datetime := pu
    fare_amount := r.fare_amount.getD 0
    total_amount := r.total_amount
    PULocationID := r.PULocationID.getD 0
    trip_distance := r.trip_distance.getD 0
    trip_duration_minutes := (dof - pu) / 60
    pickup_hour := hourOf pu
    pickup_day_of_week := strftimeA pu
    payment_type := r.payment_type }

/-- The pipeline `load_data` (src/app.py lines 51-123): drop rows with null
required columns, filter out invalid trips, derive features and project to the
nine dashboard columns, then materialize. -/
def load_data (raw : List RawRow) : List TripRecord :=
  (((raw.filter drop_nulls_pred).filter valid_pred).map derive_and_project)

/-- The sidebar payment-code-to-label mapping (src/app.py lines 156-162),
as an association list in Python dict insertion order. -/
def payment_map : List (Int × String) :=
  [(1, "Credit Card"), (2, "Cash"), (0, "Void/Unknown"), (4, "Dispute"), (3, "No Charge")]

/-- The id-recovery step for the sidebar selection (src/app.py lines 176-179):
`[k for k, v in payment_map.items() if v in selected_payments]`. -/
def selected_ids (selected_payments : List String) : List Int :=
  payment_map.filterMap (fun kv => if kv.2 ∈ selected_payments then some kv.1 else none)

/-- The sidebar label for a payment id (src/app.py line 167):
`payment_map.get(i, f"ID {i}")` — known codes map through `payment_map`,
unknown codes fall back to a label containing the raw code. -/
def payment_option (i : Int) : String :=
  ((payment_map.lookup i).getD ("ID " ++ toString i))

/-- The interactive filter (src/app.py lines 186-193): pickup date within the
selected date range, pickup hour within the selected hour range, payment type
among the selected ids, and the defensive `0 < trip_distance ≤ 100` bound. -/
def filtered_polars (df : List TripRecord) (d0 d1 h0 h1 : Nat) (ids : List Int) :
    List TripRecord :=
  df.filter (fun r =>
    decide (dateOf r.tpep_pickup_datetime ≥ d0) &&
    decide (dateOf r.tpep_pickup_datetime ≤ d1) &&
    decide (r.pickup_hour ≥ h0) &&
    decide (r.pickup_hour ≤ h1) &&
    decide (r.payment_type ∈ ids) &&
    decide (r.trip_distance > 0) && decide (r.trip_distance ≤ 100))

/-- A row of the zone lookup table (data/raw/taxi_zone_lookup.csv). -/
structure ZoneRow where
  LocationID : Int
  Borough : String
  Zone : String
deriving DecidableEq, Repr

/-- The inner merge of `top_zones` (src/app.py line 253), joining the filtered
view to the zone lookup on `PULocationID = LocationID`; pandas preserves the
order of the left keys, each matched against the right rows in order. -/
def merge_zone (rows : List TripRecord) (zones : List ZoneRow) :
    List (TripRecord × ZoneRow) :=
  rows.flatMap (fun r =>
    (zones.filter (fun z => decide (z.LocationID = r.PULocationID))).map (fun z => (r, z)))

/-- Lexicographic comparison of character lists by code point. -/
def lexLe : List Char → List Char → Bool
  | [], _ => true
  | _ :: _, [] => false
  | x :: xs, y :: ys =>
    if x.toNat < y.toNat then true
    else if y.toNat < x.toNat then false
    else lexLe xs ys

/-- Code-point lexicographic order on strings, the order pandas uses for
string group keys. -/
def strLe (a b : String) : Prop := lexLe a.data b.data = true

instance : DecidableRel strLe := fun a b => instDecidableEqBool (lexLe a.data b.data) true

/-- Ascending insertion sort on strings (pandas `groupby` sorts group keys
ascending by default). -/
def sortStr (xs : List String) : List String := List.insertionSort strLe xs

/-- The `groupby("Zone").size()` step of `top_zones` (src/app.py lines 254-256):
one entry per distinct zone name of the merged frame, keys sorted ascending,
each with its row count. -/
def zone_counts (rows : List TripRecord) (zones : List ZoneRow) :
    List (String × Nat) :=
  (sortStr ((merge_zone rows zones).map (fun p => p.2.Zone)).dedup).map
    (fun z => (z, (merge_zone rows zones).countP (fun p => decide (p.2.Zone = z))))

/-- The `sort_values("trip_count", ascending=False)` step of `top_zones`
(src/app.py line 257), modelled as an insertion sort by count descending.
The source relies on pandas' default sort kind (an unstable quicksort) and
passes no secondary key, so the order it produces among equal counts is an
artifact of the library's sorting algorithm; this embedding necessarily fixes
one concrete tie order (stable on the groupby key order), which the source
does not guarantee. -/
def sort_desc_counts (xs : List (String × Nat)) : List (String × Nat) :=
  List.insertionSort (fun a b => b.2 ≤ a.2) xs

/-- The `top_zones` aggregate (src/app.py lines 251-259): join to the zone
lookup, count by zone, sort by count descending, truncate to ten. -/
def top_zones (rows : List TripRecord) (zones : List ZoneRow) :
    List (String × Nat) :=
  (sort_desc_counts (zone_counts rows zones)).take 10

/-- Ascending insertion sort on naturals. -/
def sortNat (xs : List Nat) : List Nat := List.insertionSort (· ≤ ·) xs

/-- The group keys of `avg_fare_hour` (src/app.py line 301): pandas `groupby`
produces one group per distinct `pickup_hour` value present in the data,
sorted ascending — absent hours yield no group. -/
def group_hours (rows : List TripRecord) : List Nat :=
  sortNat (rows.map (·.pickup_hour)).dedup

/-- Number of filtered rows with the given pickup hour. -/
def count_at (rows : List TripRecord) (h : Nat) : Nat :=
  rows.countP (fun r => decide (r.pickup_hour = h))

/-- Sum of `fare_amount` over the filtered rows with the given pickup hour. -/
def fare_sum_at (rows : List TripRecord) (h : Nat) : ℚ :=
  ((rows.filter (fun r => decide (r.pickup_hour = h))).map (·.fare_amount)).sum

/-- The `avg_fare_hour` aggregate (src/app.py lines 299-304):
`groupby("pickup_hour")["fare_amount"].mean()` — one entry per hour present,
with the arithmetic mean of the fares of that group. -/
def avg_fare_hour (rows : List TripRecord) : List (Nat × ℚ) :=
  (group_hours rows).map (fun h => (h, fare_sum_at rows h / (count_at rows h : ℚ)))

/-- The `value_counts(normalize=True)` step of `payment_breakdown`
(src/app.py lines 340-344): one entry per distinct value, with its fraction
of the total, ordered by count descending.  pandas leaves the order among
equal counts unspecified (its default sort is unstable); this embedding fixes
first-occurrence order among ties. -/
def value_counts_norm (xs : List Int) : List (Int × ℚ) :=
  List.insertionSort (fun a b => (xs.countP (fun y => decide (y = b.1))) ≤ (xs.countP (fun y => decide (y = a.1))))
    (xs.dedup.map (fun v => (v, (xs.countP (fun y => decide (y = v)) : ℚ) / (xs.length : ℚ))))

/-- The label column of `payment_breakdown` (src/app.py line 349):
`Series.map(payment_map)` maps codes found in the dict to their label and any
other code to a missing value (`NaN`), modelled as `none`. -/
def map_label (code : Int) : Option String := payment_map.lookup code

/-- The `payment_breakdown` aggregate (src/app.py lines 340-349): proportions
of each distinct payment code, each tagged with its mapped label. -/
def payment_breakdown (rows : List TripRecord) : List (Int × ℚ × Option String) :=
  (value_counts_norm (rows.map (·.payment_type))).map
    (fun vp => (vp.1, vp.2, map_label vp.1))

/-- The fixed row order of the heatmap (src/app.py line 392). -/
def day_order : List String :=
  ["Monday", "Tuesday", "Wednesday", "Thursday", "Friday", "Saturday", "Sunday"]

/-- The distinct day-hour pairs present in the filtered view, i.e. the group
keys of `groupby(["pickup_day_of_week", "pickup_hour"]).size()`
(src/app.py lines 396-397). -/
def heat_keys (rows : List TripRecord) : List (String × Nat) :=
  (rows.map (fun r => (r.pickup_day_of_week, r.pickup_hour))).dedup

/-- The `groupby(...).size()` table feeding the pivot (src/app.py
lines 396-398): each present day-hour pair with its row count. -/
def size_pairs (rows : List TripRecord) : List ((String × Nat) × Nat) :=
  (heat_keys rows).map (fun k =>
    (k, rows.countP (fun r => decide ((r.pickup_day_of_week, r.pickup_hour) = k))))

/-- The columns of the pivoted frame (src/app.py lines 399-401): pandas
`pivot` emits one column per distinct `pickup_hour` value present in the
input, sorted ascending — hours absent from the input yield no column. -/
def heat_cols (rows : List TripRecord) : List Nat :=
  sortNat (rows.map (·.pickup_hour)).dedup

/-- Association-list lookup for the pivoted counts (first match wins). -/
def lookup_count (k : String × Nat) : List ((String × Nat) × Nat) → Option Nat
  | [] => none
  | kv :: rest => if kv.1 = k then some kv.2 else lookup_count k rest

/-- One cell of the heatmap after `pivot`, `reindex(day_order)` and
`fillna(0)` (src/app.py lines 399-403): the count of the day-hour pair when
present, and 0 where the pivot left a hole. -/
def heat_cell (rows : List TripRecord) (d : String) (h : Nat) : Nat :=
  (lookup_count (d, h) (size_pairs rows)).getD 0

/-- The `heatmap_data` aggregate (src/app.py lines 394-404): rows reindexed to
the fixed `day_order`, one column per hour present in the input, missing
cells filled with 0. -/
def heatmap_data (rows : List TripRecord) : List (String × List Nat) :=
  day_order.map (fun d => (d, (heat_cols rows).map (heat_cell rows d)))

/-- Modelled from the spec: the distance histogram is computed inside the
external charting library (`px.histogram(filtered_df, x="trip_distance",
nbins=50)` at src/app.py lines 438-443), whose binning code is not part of
this repository.  Per the spec it bins the field into 50 equal-width bins
spanning the observed min and max of the filtered data and counts membership
per bin; an empty input yields an empty histogram. -/
def histogram (rows : List TripRecord) : List Nat :=
  match rows.map (·.trip_distance) with
  | [] => []
  | d :: ds =>
    let lo := ds.foldl min d
    let hi := ds.foldl max d
    let w : ℚ := (hi - lo) / 50
    (List.range 50).map (fun i =>
      (d :: ds).countP (fun x =>
        if i = 49 then decide (lo + (i : ℚ) * w ≤ x) && decide (x ≤ hi)
        else decide (lo + (i : ℚ) * w ≤ x) && decide (x < lo + ((i : ℚ) + 1) * w)))

/-- The five key metrics shown above the tabs (src/app.py lines 202-209). -/
structure Metrics where
  total_trips : Nat
  average_fare : ℚ
  total_revenue : ℚ
  avg_distance : ℚ
  avg_duration : ℚ
deriving DecidableEq, Repr

/-- The key-metrics block (src/app.py lines 202-209): guarded by
`if not filtered_df.empty`, so no mean is ever computed over zero rows; on an
empty filtered view the block renders nothing, modelled as `none`. -/
def key_metrics (rows : List TripRecord) : Option Metrics :=
  if rows.isEmpty then none
  else some
    { total_trips := rows.length
      average_fare := (rows.map (·.fare_amount)).sum / (rows.length : ℚ)
      total_revenue := (rows.map (·.total_amount)).sum
      avg_distance := (rows.map (·.trip_distance)).sum / (rows.length : ℚ)
      avg_duration := ((rows.map (·.trip_duration_minutes)).sum : ℚ) / (rows.length : ℚ) }

/-- The local filesystem as seen by `download_file`, reduced to the content at
the destination path: `none` when no file exists there, `some bytes`
otherwise (a byte sequence is a list of chunks flattened to a list of
naturals). -/
structure FS where
  dest : Option (List Nat)
deriving DecidableEq, Repr

/-- Outcome of the streamed GET (src/app.py line 39): a non-success status, a
complete body delivered as chunks, or a transfer that delivers the first `k`
chunks and then raises mid-iteration. -/
inductive Transfer where
  | badStatus (code : Nat)
  | ok (chunks : List (List Nat))
  | interrupted (chunks : List (List Nat)) (k : Nat)
deriving DecidableEq, Repr

/-- One run of `download_file` (src/app.py lines 37-47) as a state transition:
returns the filesystem afterwards and whether the call returned normally.
If the destination exists the call is a no-op (cache hit).  Otherwise, a
non-success status raises before the destination is opened, leaving the
filesystem untouched; a successful transfer writes every chunk to the
destination; an interrupted transfer raises after writing the chunks
delivered so far, and the source has no cleanup handler, so the partially
written destination file remains. -/
def download_file (fs : FS) (t : Transfer) : FS × Bool :=
  match fs.dest with
  | some _ => (fs, true)
  | none =>
    match t with
    | Transfer.badStatus _ => (fs, false)
    | Transfer.ok chunks => ({ dest := some chunks.flatten }, true)
    | Transfer.interrupted chunks k => ({ dest := some (chunks.take k).flatten }, false)

/-- A concrete materialized row: pickup 1970-01-01 05:00:00 (timestamp 18000,
a Thursday), consistent derived columns, payment code 1. -/
def sampleRow : TripRecord :=
  { tpep_pickup_datetime := 18000
    fare_amount := 10
    total_amount := 12
    PULocationID := 1
    trip_distance := 2
    trip_duration_minutes := 15
    pickup_hour := 5
    pickup_day_of_week := "Thursday"
    payment_type := 1 }

/-- The same row with the out-of-range payment code 5. -/
def sampleRow5 : TripRecord := { sampleRow with payment_type := 5 }

/-- The same row picked up at location 2. -/
def sampleRowLoc2 : TripRecord := { sampleRow with PULocationID := 2 }

/-- A concrete raw row that survives every pipeline stage: a 15-minute,
2-mile, 10-dollar trip. -/
def sampleRaw : RawRow :=
  { tpep_pickup_datetime := some 18000
    tpep_dropoff_datetime := some 18900
    PULocationID := some 1
    trip_distance := some 2
    fare_amount := some 10
    total_amount := 12
    payment_type := 1 }

/-- A two-row zone lookup table. -/
def sampleZones : List ZoneRow :=
  [{ LocationID := 1, Borough := "Manhattan", Zone := "A" },
   { LocationID := 2, Borough := "Manhattan", Zone := "B" }]

/-- The derived pickup hour is always under 24. -/
theorem hourOf_lt (t : Nat) : hourOf t < 24 := by
  have h1 : t % secondsPerDay < secondsPerDay := Nat.mod_lt _ (by norm_num [secondsPerDay])
  have h2 : t % secondsPerDay < 24 * 3600 := by
    simpa [secondsPerDay] using h1
  exact (Nat.div_lt_iff_lt_mul (by norm_num)).mpr h2

/-- Membership in the filtered view unpacked into the conjuncts of the
filter predicate. -/
theorem mem_filtered_polars {df : List TripRecord} {d0 d1 h0 h1 : Nat}
    {ids : List Int} {r : TripRecord} :
    r ∈ filtered_polars df d0 d1 h0 h1 ids ↔
      r ∈ df ∧ d0 ≤ dateOf r.tpep_pickup_datetime ∧ dateOf r.tpep_pickup_datetime ≤ d1 ∧
        h0 ≤ r.pickup_hour ∧ r.pickup_hour ≤ h1 ∧ r.payment_type ∈ ids ∧
        0 < r.trip_distance ∧ r.trip_distance ≤ 100 := by
  simp only [filtered_polars, List.mem_filter, Bool.and_eq_true, decide_eq_true_eq,
    ge_iff_le, gt_iff_lt]
  tauto

/-- Filtering with the same Boolean predicate twice equals filtering once. -/
theorem filter_idem {α : Type} (p : α → Bool) (l : List α) :
    (l.filter p).filter p = l.filter p := by
  induction l with
  | nil => rfl
  | cons a t ih =>
    by_cases h : p a <;> simp [List.filter_cons, h, ih]

/-- Every id the sidebar recovers from the label selection is one of the five
`payment_map` keys. -/
theorem mem_selected_ids {sel : List String} {k : Int}
    (h : k ∈ selected_ids sel) : 0 ≤ k ∧ k ≤ 4 := by
  simp only [selected_ids, payment_map, List.filterMap_cons, List.filterMap_nil] at h
  split_ifs at h <;> simp_all <;> omega

/-- Looking up a key that is in the key list of an association list built by
mapping a function over the keys yields that function's value. -/
theorem lookup_count_map_mem {f : String × Nat → Nat} {l : List (String × Nat)}
    {k : String × Nat} (h : k ∈ l) :
    lookup_count k (l.map (fun x => (x, f x))) = some (f k) := by
  induction l with
  | nil => cases h
  | cons a t ih =>
    rcases List.mem_cons.mp h with rfl | ht
    · simp [lookup_count]
    · by_cases hak : a = k
      · subst hak; simp [lookup_count]
      · simpa [lookup_count, hak] using ih ht

/-- Looking up a key that is absent from the key list yields `none`. -/
theorem lookup_count_map_not_mem {f : String × Nat → Nat} {l : List (String × Nat)}
    {k : String × Nat} (h : k ∉ l) :
    lookup_count k (l.map (fun x => (x, f x))) = none := by
  induction l with
  | nil => rfl
  | cons a t ih =>
    have hak : a ≠ k := fun hc => h (hc ▸ List.mem_cons_self a t)
    have ht : k ∉ t := fun hc => h (List.mem_cons_of_mem a hc)
    simpa [lookup_count, hak] using ih ht

/-- A heatmap cell is exactly the number of filtered rows with that weekday
name and hour: the `fillna(0)` step turns every pivot hole into the count 0. -/
theorem heat_cell_eq_countP (rows : List TripRecord) (d : String) (h : Nat) :
    heat_cell rows d h =
      rows.countP (fun r => decide ((r.pickup_day_of_week, r.pickup_hour) = (d, h))) := by
  by_cases hk : (d, h) ∈ heat_keys rows
  · rw [heat_cell, size_pairs, lookup_count_map_mem hk]
    rfl
  · rw [heat_cell, size_pairs, lookup_count_map_not_mem hk]
    simp only [Option.getD_none]
    symm
    rw [List.countP_eq_zero]
    intro r hr hmatch
    exact hk (by
      rw [heat_keys, List.mem_dedup]
      exact (decide_eq_true_eq.mp hmatch) ▸ List.mem_map_of_mem _ hr)

/-- The label lookup of `payment_breakdown` yields `none` on any code outside
the five known ones. -/
theorem map_label_eq_none {k : Int} (hk : k < 0 ∨ 4 < k) : map_label k = none := by
  have h1 : (k == 1) = false := by simp only [beq_eq_false_iff_ne]; omega
  have h2 : (k == 2) = false := by simp only [beq_eq_false_iff_ne]; omega
  have h0 : (k == 0) = false := by simp only [beq_eq_false_iff_ne]; omega
  have h4 : (k == 4) = false := by simp only [beq_eq_false_iff_ne]; omega
  have h3 : (k == 3) = false := by simp only [beq_eq_false_iff_ne]; omega
  simp [map_label, payment_map, List.lookup, h0, h1, h2, h3, h4]

/-- C1: every row of the filtered view produced by `filtered_polars` is a row
of the base table (no row is invented), and satisfies all predicates
conjunctively: pickup date within the selected range inclusive, pickup hour
within the selected range inclusive, payment type in the selected id set, and
`0 < trip_distance ≤ 100`. -/
theorem C1_filter_no_invention_and_predicates
    (df : List TripRecord) (d0 d1 h0 h1 : Nat) (ids : List Int) (r : TripRecord)
    (h : r ∈ filtered_polars df d0 d1 h0 h1 ids) :
    r ∈ df ∧ d0 ≤ dateOf r.tpep_pickup_datetime ∧ dateOf r.tpep_pickup_datetime ≤ d1 ∧
      h0 ≤ r.pickup_hour ∧ r.pickup_hour ≤ h1 ∧ r.payment_type ∈ ids ∧
      0 < r.trip_distance ∧ r.trip_distance ≤ 100 :=
  mem_filtered_polars.mp h

/-- C1 witness: the sample row passes a concrete filter and is indeed a row
of the base table. -/
theorem C1_witness : sampleRow ∈ [sampleRow] :=
  (C1_filter_no_invention_and_predicates [sampleRow] 0 1 0 23 [1] sampleRow (by decide)).1

/-- C2: every row materialized by `load_data` satisfies
`0 < trip_distance ≤ 100`, `0 < fare_amount ≤ 500` and `pickup_hour ≤ 23`,
and originates (unchanged, via `derive_and_project`) from a raw row whose
five required fields are non-null and whose dropoff is at or after its
pickup: invalid rows are discarded, not corrected. -/
theorem C2_pipeline_invariants (raw : List RawRow) (rec : TripRecord)
    (h : rec ∈ load_data raw) :
    (0 < rec.trip_distance ∧ rec.trip_distance ≤ 100 ∧
      0 < rec.fare_amount ∧ rec.fare_amount ≤ 500 ∧ rec.pickup_hour ≤ 23) ∧
    ∃ r ∈ raw, r.tpep_pickup_datetime.isSome ∧ r.tpep_dropoff_datetime.isSome ∧
      r.PULocationID.isSome ∧ r.trip_distance.isSome ∧ r.fare_amount.isSome ∧
      r.tpep_pickup_datetime.getD 0 ≤ r.tpep_dropoff_datetime.getD 0 ∧
      rec = derive_and_project r := by
  rw [load_data] at h
  obtain ⟨r, hrmem, hrec⟩ := List.mem_map.mp h
  obtain ⟨hrnull, hvalid⟩ := List.mem_filter.mp hrmem
  obtain ⟨hraw, hnull⟩ := List.mem_filter.mp hrnull
  rcases hd : r.trip_distance with _ | d <;> rw [valid_pred, hd] at hvalid
  · cases hvalid
  rcases hf : r.fare_amount with _ | f <;> rw [hf] at hvalid
  · cases hvalid
  rcases hpu : r.tpep_pickup_datetime with _ | pu <;> rw [hpu] at hvalid
  · cases hvalid
  rcases hdo : r.tpep_dropoff_datetime with _ | dof <;> rw [hdo] at hvalid
  · cases hvalid
  simp only [Bool.and_eq_true, decide_eq_true_eq] at hvalid
  obtain ⟨⟨⟨⟨h0d, hd100⟩, h0f⟩, hf500⟩, hpd⟩ := hvalid
  constructor
  · subst hrec
    refine ⟨?_, ?_, ?_, ?_, ?_⟩
    · simpa [derive_and_project, hd] using h0d
    · simpa [derive_and_project, hd] using hd100
    · simpa [derive_and_project, hf] using h0f
    · simpa [derive_and_project, hf] using hf500
    · simpa [derive_and_project] using Nat.lt_succ_iff.mp (hourOf_lt _)
  · have hnulls := hnull
    simp only [drop_nulls_pred, Bool.and_eq_true] at hnulls
    exact ⟨r, hraw, by rw [hpu]; rfl, by rw [hdo]; rfl, hnulls.1.1.2,
      by rw [hd]; rfl, by rw [hf]; rfl,
      by rw [hpu, hdo]; simpa using hpd, hrec.symm⟩

/-- C2 witness: the sample raw row survives the pipeline and its materialized
image satisfies the distance lower bound. -/
theorem C2_witness : 0 < (derive_and_project sampleRaw).trip_distance :=
  (C2_pipeline_invariants [sampleRaw] (derive_and_project sampleRaw) (by decide)).1.1

/-- C4: on a filtered view with zero rows, the five aggregate computations all
return empty or zero-filled results (and the key-metrics block computes no
mean at all), so no mean computation ever divides by zero. -/
theorem C4_empty_view_graceful (zones : List ZoneRow) :
    top_zones [] zones = [] ∧ avg_fare_hour [] = [] ∧ payment_breakdown [] = [] ∧
    heatmap_data [] = day_order.map (fun d => (d, [])) ∧ histogram [] = [] ∧
    key_metrics [] = none :=
  ⟨rfl, rfl, rfl, rfl, rfl, rfl⟩

/-- C9: the filter step is a pure function of its inputs — idempotent
(filtering an already-filtered view with the same criteria changes nothing)
and deterministic (equal tables and equal criteria give equal outputs). -/
theorem C9_filter_pure_idempotent (df df' : List TripRecord)
    (d0 d1 h0 h1 : Nat) (ids ids' : List Int)
    (hdf : df = df') (hids : ids = ids') :
    filtered_polars (filtered_polars df d0 d1 h0 h1 ids) d0 d1 h0 h1 ids
        = filtered_polars df d0 d1 h0 h1 ids ∧
      filtered_polars df d0 d1 h0 h1 ids = filtered_polars df' d0 d1 h0 h1 ids' := by
  subst hdf hids
  exact ⟨filter_idem _ _, rfl⟩

/-- C9 witness: idempotence at a concrete table and concrete criteria. -/
theorem C9_witness :
    filtered_polars (filtered_polars [sampleRow] 0 1 0 23 [1]) 0 1 0 23 [1]
      = filtered_polars [sampleRow] 0 1 0 23 [1] :=
  (C9_filter_pure_idempotent [sampleRow] [sampleRow] 0 1 0 23 [1] [1] rfl rfl).1

/-- C10: whatever label list the sidebar selection holds, the recovered id
set is contained in the five known codes 0–4, and therefore every row of the
resulting filtered view has a payment type in 0–4: rows with a payment code
outside 0–4 are always excluded. -/
theorem C10_selected_ids_subset (sel : List String) (df : List TripRecord)
    (d0 d1 h0 h1 : Nat) (r : TripRecord)
    (h : r ∈ filtered_polars df d0 d1 h0 h1 (selected_ids sel)) :
    (∀ k ∈ selected_ids sel, 0 ≤ k ∧ k ≤ 4) ∧
      0 ≤ r.payment_type ∧ r.payment_type ≤ 4 := by
  refine ⟨fun k hk => mem_selected_ids hk, ?_⟩
  have hmem := (mem_filtered_polars.mp h).2.2.2.2.2.1
  exact mem_selected_ids hmem

/-- C10 witness: with only the Credit Card label selected, the sample row in
the concrete filtered view carries a payment code in 0–4. -/
theorem C10_witness : 0 ≤ sampleRow.payment_type ∧ sampleRow.payment_type ≤ 4 :=
  (C10_selected_ids_subset ["Credit Card"] [sampleRow] 0 1 0 23 sampleRow (by decide)).2

/-- C3 counterexample: on a one-row filtered view (one trip at hour 5) the
cross-tab has its 7 fixed weekday rows but only one column — not the 24
columns for hours 0 through 23 the claim asserts for every filtered view. -/
theorem C3_counterexample :
    (heatmap_data [sampleRow]).map (fun p => p.2.length) = [1, 1, 1, 1, 1, 1, 1] ∧
      ¬ ∀ p ∈ heatmap_data [sampleRow], p.2.length = 24 := by
  constructor
  · decide
  · intro hall
    have := hall ("Monday", [0]) (by decide)
    simp at this

/-- C3 amended: the cross-tab always has exactly 7 rows in the fixed order
Monday through Sunday; its columns are the distinct pickup hours present in
the input, in ascending order (24 columns only when every hour occurs); and
every cell — in particular every day-hour combination absent from the input —
is the plain trip count, 0 rather than null or missing. -/
theorem C3_heatmap_shape (rows : List TripRecord) (p : String × List Nat)
    (hp : p ∈ heatmap_data rows) :
    ((heatmap_data rows).map Prod.fst = day_order ∧ (heatmap_data rows).length = 7) ∧
    (List.Sorted (· ≤ ·) (heat_cols rows) ∧
      ∀ h : Nat, h ∈ heat_cols rows ↔ h ∈ rows.map (·.pickup_hour)) ∧
    p.2 = (heat_cols rows).map (fun h =>
      rows.countP (fun r => decide ((r.pickup_day_of_week, r.pickup_hour) = (p.1, h)))) := by
  refine ⟨⟨?_, ?_⟩, ⟨?_, ?_⟩, ?_⟩
  · rfl
  · rfl
  · exact List.sorted_insertionSort _ _
  · intro h
    rw [heat_cols, sortNat, (List.perm_insertionSort _ _).mem_iff, List.mem_dedup]
  · obtain ⟨d, _, hpd⟩ := List.mem_map.mp hp
    subst hpd
    simp only [List.map_inj_left]
    intro h _
    exact heat_cell_eq_countP rows d h

/-- C3 witness: the amended shape at a concrete one-row view — the weekday
row labels are exactly `day_order`. -/
theorem C3_witness : (heatmap_data [sampleRow]).map Prod.fst = day_order :=
  (C3_heatmap_shape [sampleRow] ("Monday", [0]) (by decide)).1.1

/-- C5 counterexample: on a one-row filtered view with a trip at hour 5, the
mean-by-hour aggregate reports the single group 5 — hour 0 (an empty group)
is absent from the result, not reported as undefined, refuting the claim that
all 24 hour groups are always reported. -/
theorem C5_counterexample :
    (avg_fare_hour [sampleRow]).map Prod.fst = [5] ∧
      (0 : Nat) ∉ (avg_fare_hour [sampleRow]).map Prod.fst := by
  constructor <;> decide

/-- C5 amended: the mean-by-hour aggregate reports exactly the distinct
pickup hours present in the filtered view, in ascending order — empty hour
groups are omitted, not reported as undefined — and each reported group is
non-empty and carries the arithmetic mean of `fare_amount` over its rows. -/
theorem C5_mean_by_hour_present_groups (rows : List TripRecord) (pr : Nat × ℚ)
    (hpr : pr ∈ avg_fare_hour rows) :
    (List.Sorted (· ≤ ·) ((avg_fare_hour rows).map Prod.fst) ∧
      ∀ h : Nat, h ∈ (avg_fare_hour rows).map Prod.fst ↔ h ∈ rows.map (·.pickup_hour)) ∧
    0 < count_at rows pr.1 ∧
    pr.2 = fare_sum_at rows pr.1 / (count_at rows pr.1 : ℚ) := by
  have hfst : (avg_fare_hour rows).map Prod.fst = group_hours rows := by
    simp [avg_fare_hour, List.map_map, Function.comp_def]
  refine ⟨⟨?_, ?_⟩, ?_, ?_⟩
  · rw [hfst]
    exact List.sorted_insertionSort _ _
  · intro h
    rw [hfst, group_hours, sortNat, (List.perm_insertionSort _ _).mem_iff, List.mem_dedup]
  · obtain ⟨h, hmem, hpd⟩ := List.mem_map.mp hpr
    have hh : h ∈ rows.map (·.pickup_hour) := by
      rw [group_hours, sortNat, (List.perm_insertionSort _ _).mem_iff, List.mem_dedup] at hmem
      exact hmem
    obtain ⟨r, hr, hrh⟩ := List.mem_map.mp hh
    rw [← hpd]
    rw [count_at, List.countP_pos_iff]
    exact ⟨r, hr, by simpa using hrh⟩
  · obtain ⟨h, _, hpd⟩ := List.mem_map.mp hpr
    rw [← hpd]

/-- C5 witness: the amended statement at a concrete one-row view — the single
reported group, hour 5, is non-empty. -/
theorem C5_witness : 0 < count_at [sampleRow] 5 :=
  (C5_mean_by_hour_present_groups [sampleRow] (5, 10) (by
    norm_num [avg_fare_hour, group_hours, sortNat, fare_sum_at, count_at,
      List.insertionSort, List.orderedInsert, List.dedup, sampleRow])).2.1

/-- C6: at a concrete filtered view whose two zones have equal trip counts,
the table handed to the descending count sort contains a tie.  The source
sorts it with pandas' default sort kind (an unstable quicksort) and specifies
no secondary key, so the order of these two tied entries in `top_zones` is an
artifact of the library's sorting algorithm rather than of any fixed
deterministic secondary key. -/
theorem C6_tie_exists_at_failing_input :
    zone_counts [sampleRow, sampleRowLoc2] sampleZones = [("A", 1), ("B", 1)] ∧
      (top_zones [sampleRow, sampleRowLoc2] sampleZones).length ≤ 10 := by
  constructor <;> decide

/-- C8: at the failing input — a transfer interrupted after its first chunk —
`download_file` raises (returns abnormally) but leaves the partially written
file at the destination, and a future run, seeing a file at the destination
path, treats it as a valid cache hit and keeps the partial content, which
differs from the full body. -/
theorem C8_partial_file_poisons_cache :
    download_file { dest := none } (Transfer.interrupted [[1], [2], [3]] 1)
        = ({ dest := some [1] }, false) ∧
      download_file { dest := some [1] } (Transfer.ok [[1], [2], [3]])
        = ({ dest := some [1] }, true) ∧
      ([1] : List Nat) ≠ ([[1], [2], [3]] : List (List Nat)).flatten := by
  refine ⟨rfl, rfl, by decide⟩

/-- C7 counterexample: a filtered view whose single row has payment code 5 —
outside 0–4 — yields a distribution entry whose label is missing (`none`,
pandas `NaN`), not a fallback label containing the raw code. -/
theorem C7_counterexample :
    (payment_breakdown [sampleRow5]).map (fun t => (t.1, t.2.2)) = [(5, none)] := by
  decide

/-- C7 amended: in the payment-type distribution, codes 0–4 map to
Void/Unknown, Credit Card, Cash, No Charge and Dispute respectively, but a
code outside 0–4 gets a missing (null) label rather than a fallback label;
the fallback label containing the raw code exists only in the sidebar option
labels (`payment_option`). -/
theorem C7_label_mapping (rows : List TripRecord) (e : Int × ℚ × Option String)
    (he : e ∈ payment_breakdown rows) :
    ((e.1 = 0 → e.2.2 = some "Void/Unknown") ∧
      (e.1 = 1 → e.2.2 = some "Credit Card") ∧
      (e.1 = 2 → e.2.2 = some "Cash") ∧
      (e.1 = 3 → e.2.2 = some "No Charge") ∧
      (e.1 = 4 → e.2.2 = some "Dispute") ∧
      (e.1 < 0 ∨ 4 < e.1 → e.2.2 = none)) ∧
    payment_option 5 = "ID 5" := by
  obtain ⟨vp, _, hvp⟩ := List.mem_map.mp he
  have hlabel : e.2.2 = map_label e.1 := by rw [← hvp]
  refine ⟨⟨?_, ?_, ?_, ?_, ?_, ?_⟩, rfl⟩ <;> intro h1
  · rw [hlabel, h1]; rfl
  · rw [hlabel, h1]; rfl
  · rw [hlabel, h1]; rfl
  · rw [hlabel, h1]; rfl
  · rw [hlabel, h1]; rfl
  · rw [hlabel, map_label_eq_none h1]

/-- C7 witness: the amended mapping at a concrete one-row view with payment
code 1. -/
theorem C7_witness : ((1 : Int), (1 : ℚ), some "Credit Card").2.2 = some "Credit Card" :=
  ((C7_label_mapping [sampleRow] (1, 1, some "Credit Card") (by
    norm_num [payment_breakdown, value_counts_norm, map_label, payment_map,
      List.dedup, List.insertionSort, List.orderedInsert, sampleRow])).1.2.1) rfl

end TaxiDash
